import Mathlib

/-!
Verification development for the MECHASENSE motor-condition-monitoring core.

The embedding covers the two deterministic diagnostic engines:
* the threshold-based health-score calculator
  (`src/lib/calculateHealthScore.ts`, function `calculateHealthScore`);
* the certainty-factor expert-system rule engine
  (`src/app/ai-center/page.tsx`, functions `runDiagnosis` and
  `calculateConclusion`, with the symptom catalog from
  `src/lib/expert-system/symptoms.ts`);
together with the `POST /api/ml/predict` route handler.

JavaScript numbers are modelled as exact rationals (`ℚ`); `Math.round` and
`toFixed` become explicit floor-based rounding functions.  Fields that may be
`undefined` become `Option ℚ`.  `Array.prototype.sort`, which is a stable sort
in modern JavaScript, is modelled by the stable Mathlib `List.insertionSort`
(any stable sort of a total preorder produces the same list).
-/

/-- JavaScript `Math.round`: round half toward positive infinity. -/
def jsRound (q : ℚ) : ℤ := ⌊q + 1/2⌋

/-- JavaScript `Number(x.toFixed(1))` for the nonnegative values occurring
here: round to the nearest multiple of `1/10`, half away from zero. -/
def round1 (q : ℚ) : ℚ := (⌊q * 10 + 1/2⌋ : ℚ) / 10

/-- JavaScript `Number(x.toFixed(2))` for the nonnegative values occurring
here: round to the nearest multiple of `1/100`, half away from zero. -/
def round2 (q : ℚ) : ℚ := (⌊q * 100 + 1/2⌋ : ℚ) / 100

/-! ### Health score calculator (`src/lib/calculateHealthScore.ts`) -/

/-- Status levels of the threshold classifier. -/
inductive StatusLevel where
  | normal
  | warning
  | critical
deriving DecidableEq, Repr

/-- The `StatusResult` shape from `lib/thresholds` as used by `calculateHealthScore`:
a level plus display metadata. -/
structure StatusResult where
  level : StatusLevel
  label : String
  color : String
  bgColor : String
deriving DecidableEq, Repr

/-- The literal normal status object built inside `addFactor`. -/
def statusNormal : StatusResult :=
  { level := StatusLevel.normal, label := "Normal",
    color := "text-status-normal", bgColor := "bg-status-normal" }

/-- The literal warning status object built inside `calculateHealthScore`. -/
def statusWarning : StatusResult :=
  { level := StatusLevel.warning, label := "Warning",
    color := "text-status-warning", bgColor := "bg-status-warning" }

/-- The literal critical status object built inside `calculateHealthScore`. -/
def statusCritical : StatusResult :=
  { level := StatusLevel.critical, label := "Critical",
    color := "text-status-critical", bgColor := "bg-status-critical" }

/-- The `SensorReading` interface: every field optional. -/
structure SensorReading where
  gridVoltage : Option ℚ := none
  motorCurrent : Option ℚ := none
  power : Option ℚ := none
  powerFactor : Option ℚ := none
  gridFrequency : Option ℚ := none
  vibrationRms : Option ℚ := none
  vibrationPeakG : Option ℚ := none
  motorSurfaceTemp : Option ℚ := none
  bearingTemp : Option ℚ := none
  ambientTemp : Option ℚ := none
  dustDensity : Option ℚ := none
deriving DecidableEq, Repr

/-- One contributing factor of the health score (`HealthFactor`). -/
structure HealthFactor where
  parameter : String
  value : ℚ
  status : StatusResult
  penalty : ℚ
deriving DecidableEq, Repr

/-- The category of a health score (Healthy, At Risk or Critical). -/
inductive HealthCategory where
  | Healthy
  | AtRisk
  | Critical
deriving DecidableEq, Repr

/-- The result of `calculateHealthScore` (`HealthScoreResult`).  The score is
an integer because the source returns `Math.round(score)`. -/
structure HealthScoreResult where
  score : ℤ
  category : HealthCategory
  factors : List HealthFactor
deriving DecidableEq, Repr

/-- The threshold argument object of `addFactor`. -/
structure Thresholds where
  warning : ℚ
  critical : ℚ
  isLower : Bool := false
deriving DecidableEq, Repr

/-- Vibration thresholds (ISO 10816 limits used in the source). -/
def vibTh : Thresholds := { warning := 2.8, critical := 4.5 }

/-- Motor surface temperature thresholds. -/
def motorTempTh : Thresholds := { warning := 70, critical := 85 }

/-- Bearing temperature thresholds. -/
def bearingTempTh : Thresholds := { warning := 65, critical := 80 }

/-- Motor current thresholds. -/
def currentTh : Thresholds := { warning := 4.6, critical := 5.5 }

/-- Power factor thresholds (lower is worse). -/
def powerFactorTh : Thresholds := { warning := 0.85, critical := 0.70, isLower := true }

/-- Dust density thresholds. -/
def dustTh : Thresholds := { warning := 50, critical := 100 }

/-- Max penalty for vibration RMS. -/
def vibrationMaxPenalty : ℚ := 25

/-- Max penalty for motor surface temperature. -/
def motorTempMaxPenalty : ℚ := 20

/-- Max penalty for bearing temperature. -/
def bearingTempMaxPenalty : ℚ := 20

/-- Max penalty for motor current. -/
def currentMaxPenalty : ℚ := 15

/-- Max penalty for power factor. -/
def powerFactorMaxPenalty : ℚ := 15

/-- Max penalty for dust density. -/
def dustMaxPenalty : ℚ := 10

/-- The `addFactor` helper closed over `(score, factors)`, modelled as a
state-passing function on the pair.  A `none` value returns the state
unchanged; otherwise the threshold comparison picks a status and penalty, and
a positive penalty is subtracted from the score and recorded as a factor. -/
def addFactor (st : ℚ × List HealthFactor) (parameter : String) (value : Option ℚ)
    (thresholds : Thresholds) (maxPenalty : ℚ) : ℚ × List HealthFactor :=
  match value with
  | none => st
  | some v =>
    let status : StatusResult :=
      if thresholds.isLower then
        if v < thresholds.critical then statusCritical
        else if v < thresholds.warning then statusWarning
        else statusNormal
      else
        if v > thresholds.critical then statusCritical
        else if v > thresholds.warning then statusWarning
        else statusNormal
    let penalty : ℚ :=
      if thresholds.isLower then
        if v < thresholds.critical then maxPenalty
        else if v < thresholds.warning then maxPenalty * 0.5
        else 0
      else
        if v > thresholds.critical then maxPenalty
        else if v > thresholds.warning then maxPenalty * 0.5
        else 0
    if penalty > 0 then
      (st.1 - penalty, st.2 ++ [{ parameter := parameter, value := v, status := status, penalty := penalty }])
    else st

/-- The inline voltage-deviation block of `calculateHealthScore`:
`deviation = |value − 220| / 220`; deviation above `0.15` deducts 10,
above `0.10` deducts 5. -/
def addVoltageFactor (st : ℚ × List HealthFactor) (value : Option ℚ) :
    ℚ × List HealthFactor :=
  match value with
  | none => st
  | some v =>
    let deviation := |v - 220| / 220
    if deviation > 0.15 then
      (st.1 - 10, st.2 ++ [{ parameter := "gridVoltage", value := v, status := statusCritical, penalty := 10 }])
    else if deviation > 0.10 then
      (st.1 - 5, st.2 ++ [{ parameter := "gridVoltage", value := v, status := statusWarning, penalty := 5 }])
    else st

/-- The inline frequency-deviation block of `calculateHealthScore`:
`deviation = |value − 50| / 50`; deviation above `0.02` deducts 5,
above `0.01` deducts 2. -/
def addFrequencyFactor (st : ℚ × List HealthFactor) (value : Option ℚ) :
    ℚ × List HealthFactor :=
  match value with
  | none => st
  | some v =>
    let deviation := |v - 50| / 50
    if deviation > 0.02 then
      (st.1 - 5, st.2 ++ [{ parameter := "gridFrequency", value := v, status := statusCritical, penalty := 5 }])
    else if deviation > 0.01 then
      (st.1 - 2, st.2 ++ [{ parameter := "gridFrequency", value := v, status := statusWarning, penalty := 2 }])
    else st

/-- The clamp `score = Math.max(0, Math.min(100, score))`. -/
def clampScore (q : ℚ) : ℚ := max 0 (min 100 q)

/-- The category branch of `calculateHealthScore` (applied to the clamped,
not yet rounded score). -/
def categoryOf (score : ℚ) : HealthCategory :=
  if score ≥ 80 then HealthCategory.Healthy
  else if score ≥ 60 then HealthCategory.AtRisk
  else HealthCategory.Critical

/-- The sort `factors.sort((a, b) => b.penalty - a.penalty)`: stable sort by
descending penalty. -/
def sortFactors (factors : List HealthFactor) : List HealthFactor :=
  factors.insertionSort (fun a b => b.penalty ≤ a.penalty)

/-- The sequence of deduction steps of `calculateHealthScore`, in source
order, starting from score 100 and no factors. -/
def runFactors (reading : SensorReading) : ℚ × List HealthFactor :=
  let st0 : ℚ × List HealthFactor := (100, [])
  let st1 := addFactor st0 "vibrationRms" reading.vibrationRms vibTh vibrationMaxPenalty
  let st2 := addFactor st1 "motorSurfaceTemp" reading.motorSurfaceTemp motorTempTh motorTempMaxPenalty
  let st3 := addFactor st2 "bearingTemp" reading.bearingTemp bearingTempTh bearingTempMaxPenalty
  let st4 := addFactor st3 "motorCurrent" reading.motorCurrent currentTh currentMaxPenalty
  let st5 := addFactor st4 "powerFactor" reading.powerFactor powerFactorTh powerFactorMaxPenalty
  let st6 := addVoltageFactor st5 reading.gridVoltage
  let st7 := addFactor st6 "dustDensity" reading.dustDensity dustTh dustMaxPenalty
  addFrequencyFactor st7 reading.gridFrequency

/-- The function `calculateHealthScore`: run all deduction steps, clamp the score to
`[0, 100]`, derive the category, sort the factors by descending penalty and
round the score to an integer. -/
def calculateHealthScore (reading : SensorReading) : HealthScoreResult :=
  let st := runFactors reading
  let score := clampScore st.1
  { score := jsRound score
    category := categoryOf score
    factors := sortFactors st.2 }

/-- Sum of the penalties recorded in a factor list. -/
def sumPenalties (factors : List HealthFactor) : ℚ :=
  (factors.map HealthFactor.penalty).sum

/-- The penalty that one `addFactor` step deducts, as a standalone function
(0 when the value is absent or inside the normal band). -/
def stdPenalty (value : Option ℚ) (thresholds : Thresholds) (maxPenalty : ℚ) : ℚ :=
  match value with
  | none => 0
  | some v =>
    if thresholds.isLower then
      if v < thresholds.critical then maxPenalty
      else if v < thresholds.warning then maxPenalty * 0.5
      else 0
    else
      if v > thresholds.critical then maxPenalty
      else if v > thresholds.warning then maxPenalty * 0.5
      else 0

/-- The penalty deducted by the voltage-deviation block. -/
def voltPenalty (value : Option ℚ) : ℚ :=
  match value with
  | none => 0
  | some v =>
    if |v - 220| / 220 > 0.15 then 10
    else if |v - 220| / 220 > 0.10 then 5
    else 0

/-- The penalty deducted by the frequency-deviation block. -/
def freqPenalty (value : Option ℚ) : ℚ :=
  match value with
  | none => 0
  | some v =>
    if |v - 50| / 50 > 0.02 then 5
    else if |v - 50| / 50 > 0.01 then 2
    else 0

/-- Total penalty deducted from the initial score of 100 for a reading. -/
def totalPenalty (reading : SensorReading) : ℚ :=
  stdPenalty reading.vibrationRms vibTh vibrationMaxPenalty +
  stdPenalty reading.motorSurfaceTemp motorTempTh motorTempMaxPenalty +
  stdPenalty reading.bearingTemp bearingTempTh bearingTempMaxPenalty +
  stdPenalty reading.motorCurrent currentTh currentMaxPenalty +
  stdPenalty reading.powerFactor powerFactorTh powerFactorMaxPenalty +
  voltPenalty reading.gridVoltage +
  stdPenalty reading.dustDensity dustTh dustMaxPenalty +
  freqPenalty reading.gridFrequency

/-! ### Expert system (`src/app/ai-center/page.tsx` and the symptom catalog) -/

/-- A symptom of the static catalog (`lib/expert-system/symptoms.ts`). -/
structure Symptom where
  id : ℕ
  question : String
  cfExpert : ℚ
deriving DecidableEq, Repr

/-- The static symptom catalog, verbatim from the source. -/
def symptoms : List Symptom :=
  [ { id := 1, question := "Motor does not rotate", cfExpert := 1.0 },
    { id := 2, question := "Humming sound is heard", cfExpert := 0.6 },
    { id := 3, question := "Motor rotation is slow", cfExpert := 0.8 },
    { id := 4, question := "Motor heats up quickly", cfExpert := 0.7 },
    { id := 5, question := "Burning smell from motor", cfExpert := 1.0 },
    { id := 6, question := "MCB or fuse trips frequently", cfExpert := 0.9 },
    { id := 7, question := "Excessive vibration", cfExpert := 0.8 },
    { id := 8, question := "Rough or abnormal sound is heard", cfExpert := 1.0 },
    { id := 9, question := "Capacitor is swollen", cfExpert := 0.9 },
    { id := 10, question := "Motor is weak despite normal voltage", cfExpert := 1.0 } ]

/-- The qualitative user answer (`"No" | "Sometimes" | "Yes"`). -/
inductive UserAnswer where
  | No
  | Sometimes
  | Yes
deriving DecidableEq, Repr

/-- Modelled from the spec: `fuzzyLevelToValue` from
`lib/expert-system/fuzzyMembership` is imported by the AI-center page but its
source file is not in the repository snapshot.  The spec fixes the mapping as
No → 0.0, Sometimes → 0.5, Yes → 1.0. -/
def fuzzyLevelToValue : UserAnswer → ℚ
  | UserAnswer.No => 0
  | UserAnswer.Sometimes => 0.5
  | UserAnswer.Yes => 1

/-- The combination operator of a rule. -/
inductive RuleOp where
  | OR
  | AND
deriving DecidableEq, Repr

/-- The fault level of a rule (`"A" | "B" | "C"`, displayed as
Minor / Moderate / Severe). -/
inductive RuleLevel where
  | A
  | B
  | C
deriving DecidableEq, Repr

/-- A diagnostic rule of the catalog (`lib/expert-system/rules`): referenced
symptom ids, combination operator, fault level and remediation text. -/
structure Rule where
  id : String
  symptoms : List ℕ
  operator : RuleOp
  level : RuleLevel
  damage : String
  solution : String
deriving DecidableEq, Repr

/-- A fired diagnosis (`DiagnosisResult`). -/
structure DiagnosisResult where
  id : String
  level : RuleLevel
  damage : String
  solution : String
  cfRule : ℚ
deriving DecidableEq, Repr

/-- The map `levelScore`: severity weight of a fault level (A=40, B=70, C=100). -/
def levelScore : RuleLevel → ℚ
  | RuleLevel.A => 40
  | RuleLevel.B => 70
  | RuleLevel.C => 100

/-- JavaScript `Math.max(...values)` on a nonempty list (0 on `[]`, which the source
never evaluates because of the emptiness guard). -/
def listMax : List ℚ → ℚ
  | [] => 0
  | x :: xs => xs.foldl max x

/-- JavaScript `Math.min(...values)` on a nonempty list (0 on `[]`, which the source
never evaluates because of the emptiness guard). -/
def listMin : List ℚ → ℚ
  | [] => 0
  | x :: xs => xs.foldl min x

/-- The function `runDiagnosis` from the AI-center page, with the rule catalog and the
answer record as explicit inputs.  For each rule, collect
`fuzzyLevelToValue(answer) * cfExpert` over the referenced symptoms that are
answered and found in the catalog; skip the rule if nothing was collected;
combine with max (OR) or min (AND); emit a result when the combined value is
positive, with the value rounded to 2 decimals. -/
def runDiagnosis (rules : List Rule) (answers : ℕ → Option UserAnswer) :
    List DiagnosisResult :=
  rules.foldl (fun output rule =>
    let cfValues := rule.symptoms.foldl (fun acc sid =>
      match answers sid, (symptoms.find? (fun s => s.id == sid)).map Symptom.cfExpert with
      | some userAnswer, some expertCF => acc ++ [fuzzyLevelToValue userAnswer * expertCF]
      | _, _ => acc) []
    if cfValues = [] then output
    else
      let cfRule := if rule.operator = RuleOp.OR then listMax cfValues else listMin cfValues
      if cfRule > 0 then
        output ++ [{ id := rule.id, level := rule.level, damage := rule.damage,
                     solution := rule.solution, cfRule := round2 cfRule }]
      else output) []

/-- The evidence a rule collects, written after the wording of the spec: the fuzzy
value of the answer of each answered symptom multiplied by the expert
certainty factor of that symptom. -/
def specRuleEvidence (answers : ℕ → Option UserAnswer) (rule : Rule) : List ℚ :=
  rule.symptoms.filterMap (fun sid =>
    match answers sid with
    | none => none
    | some userAnswer =>
      (symptoms.find? (fun s => s.id == sid)).map
        (fun s => fuzzyLevelToValue userAnswer * s.cfExpert))

/-- The diagnosis output described by the spec: per rule, no result when no
referenced symptom is answered; otherwise combine the evidence with max (OR)
or min (AND) and emit a result, rounded to 2 decimals, exactly when the
combined value is positive. -/
def specDiagnosis (rules : List Rule) (answers : ℕ → Option UserAnswer) :
    List DiagnosisResult :=
  rules.filterMap (fun rule =>
    let evidence := specRuleEvidence answers rule
    if evidence = [] then none
    else
      let combined := if rule.operator = RuleOp.OR then listMax evidence else listMin evidence
      if combined > 0 then
        some { id := rule.id, level := rule.level, damage := rule.damage,
               solution := rule.solution, cfRule := round2 combined }
      else none)

/-- An overall conclusion (`{percent, label}`). -/
structure Conclusion where
  percent : ℚ
  label : String
deriving DecidableEq, Repr

/-- The exact severity percentage aggregated by `calculateConclusion` before
rounding: `(Σ levelScore) / (count × 100) × 100`. -/
def conclusionPercent (data : List DiagnosisResult) : ℚ :=
  (data.foldl (fun sum r => sum + levelScore r.level) 0) /
    ((data.length : ℚ) * 100) * 100

/-- The function `calculateConclusion` from the AI-center page: `none` when no rule fired;
otherwise the average severity weight as a percentage, classified at the
unrounded value (≤40 Minor, ≤70 Moderate, else Severe) and stored rounded to
1 decimal. -/
def calculateConclusion (data : List DiagnosisResult) : Option Conclusion :=
  if data.length = 0 then none
  else
    let totalScore := data.foldl (fun sum r => sum + levelScore r.level) 0
    let percent := totalScore / ((data.length : ℚ) * 100) * 100
    let label := if percent ≤ 40 then "Minor"
      else if percent ≤ 70 then "Moderate"
      else "Severe"
    some { percent := round1 percent, label := label }

/-! ### `POST /api/ml/predict` route handler -/

/-- One vibration reading of the request body (timestamps are wall-clock
values with no algorithmic role and are not modelled). -/
structure VibrationReading where
  vibration_rms : ℚ
deriving DecidableEq, Repr

/-- The route interface `SensorData`, including the Firebase-format
`vibration_peak_g` field. -/
structure SensorData where
  gridVoltage : Option ℚ := none
  motorCurrent : Option ℚ := none
  power : Option ℚ := none
  powerFactor : Option ℚ := none
  gridFrequency : Option ℚ := none
  vibrationRms : Option ℚ := none
  motorSurfaceTemp : Option ℚ := none
  bearingTemp : Option ℚ := none
  dustDensity : Option ℚ := none
  vibration_peak_g : Option ℚ := none
deriving DecidableEq, Repr

/-- Snake-case classification block of the ML service response. -/
structure MLClassificationWire where
  will_fail_soon : Bool
  failure_probability : ℚ
  confidence : String
  threshold_minutes : ℚ
deriving DecidableEq, Repr

/-- Snake-case regression block of the ML service response. -/
structure MLRegressionWire where
  minutes_to_failure : ℚ
  hours_to_failure : ℚ
  status : String
deriving DecidableEq, Repr

/-- The ML service response (`MLPredictionResponse`). -/
structure MLPredictionResponse where
  classification : MLClassificationWire
  regression : MLRegressionWire
  readings_used : ℕ
deriving DecidableEq, Repr

/-- Camel-case classification block of the response of the route. -/
structure MLClassification where
  willFailSoon : Bool
  failureProbability : ℚ
  confidence : String
  thresholdMinutes : ℚ
deriving DecidableEq, Repr

/-- Camel-case regression block of the response of the route. -/
structure MLRegression where
  minutesToFailure : ℚ
  hoursToFailure : ℚ
  status : String
deriving DecidableEq, Repr

/-- The `mlPrediction` object of the route response. -/
structure MLPredictionOut where
  classification : MLClassification
  regression : MLRegression
  readingsUsed : ℕ
deriving DecidableEq, Repr

/-- Possible `mlServiceStatus` values. -/
inductive MlServiceStatus where
  | available
  | unavailable
  | disabled
deriving DecidableEq, Repr

/-- The JSON body the route returns on its success path (the timestamp is a
wall-clock value with no algorithmic role and is not modelled). -/
structure PredictResponse where
  success : Bool
  healthScore : HealthScoreResult
  mlPrediction : Option MLPredictionOut
  mlServiceStatus : MlServiceStatus
  mlServiceError : Option String
deriving DecidableEq, Repr

/-- Outcome of the `fetch` to the external ML service: a 2xx JSON payload, a
non-2xx response (with the optional error text read from its body), or a
thrown error (network failure or the 10-second timeout). -/
inductive MlCallOutcome where
  | ok (resp : MLPredictionResponse)
  | httpError (statusCode : ℕ) (errorText : Option String)
  | fetchError (message : Option String)
deriving DecidableEq, Repr

/-- Deployment environment of the route: `ML_SERVICE_URL` unset, empty or
pointing at localhost (`canCallMlService` false), or configured together with
what the call to the service would produce. -/
inductive MlEnv where
  | notConfigured
  | configured (outcome : MlCallOutcome)
deriving DecidableEq, Repr

/-- JavaScript `a || b` for an optional number `a`: `b` when `a` is absent or
zero (falsy), otherwise the value of `a`. -/
def jsOr (a : Option ℚ) (b : ℚ) : ℚ :=
  match a with
  | some x => if x = 0 then b else x
  | none => b

/-- JavaScript truthiness of an optional number. -/
def jsTruthy (a : Option ℚ) : Bool :=
  match a with
  | some x => decide (x ≠ 0)
  | none => false

/-- The `SensorReading` literal the route passes to `calculateHealthScore`:
all snapshot fields forwarded, except that `vibrationRms` is replaced by
`sensorData?.vibration_peak_g || sensorData?.vibrationRms || 0`. -/
def normalizedReading (sensorData : Option SensorData) : SensorReading :=
  { gridVoltage := sensorData.bind SensorData.gridVoltage
    motorCurrent := sensorData.bind SensorData.motorCurrent
    power := sensorData.bind SensorData.power
    powerFactor := sensorData.bind SensorData.powerFactor
    gridFrequency := sensorData.bind SensorData.gridFrequency
    vibrationRms := some (jsOr (sensorData.bind SensorData.vibration_peak_g)
      (jsOr (sensorData.bind SensorData.vibrationRms) 0))
    motorSurfaceTemp := sensorData.bind SensorData.motorSurfaceTemp
    bearingTemp := sensorData.bind SensorData.bearingTemp
    dustDensity := sensorData.bind SensorData.dustDensity }

/-- Modelled from the spec: "the same sensor snapshot" — the route field
`sensorData` read directly as the calculator input `SensorReading`, with no
renaming or substitution (the Firebase-format `vibration_peak_g` maps to the
declared `vibrationPeakG` field). -/
def toSensorReading (sd : SensorData) : SensorReading :=
  { gridVoltage := sd.gridVoltage
    motorCurrent := sd.motorCurrent
    power := sd.power
    powerFactor := sd.powerFactor
    gridFrequency := sd.gridFrequency
    vibrationRms := sd.vibrationRms
    vibrationPeakG := sd.vibration_peak_g
    motorSurfaceTemp := sd.motorSurfaceTemp
    bearingTemp := sd.bearingTemp
    dustDensity := sd.dustDensity }

/-- Camel-casing of the ML service response performed in the
`NextResponse.json` literal of the route. -/
def convertMlResponse (resp : MLPredictionResponse) : MLPredictionOut :=
  { classification :=
      { willFailSoon := resp.classification.will_fail_soon
        failureProbability := resp.classification.failure_probability
        confidence := resp.classification.confidence
        thresholdMinutes := resp.classification.threshold_minutes }
    regression :=
      { minutesToFailure := resp.regression.minutes_to_failure
        hoursToFailure := resp.regression.hours_to_failure
        status := resp.regression.status }
    readingsUsed := resp.readings_used }

/-- The synthetic fallback prediction the route builds from vibration
magnitude bands when the ML service is not configured. -/
def syntheticPrediction (vibration : ℚ) : MLPredictionResponse :=
  let fwm : ℚ × Bool × ℚ :=
    if vibration > 0.5 then (0.85, true, 1440)
    else if vibration > 0.2 then (0.6, false, 10080)
    else (0.15, false, 43200)
  { classification :=
      { will_fail_soon := fwm.2.1, failure_probability := fwm.1,
        confidence := "High", threshold_minutes := 60 }
    regression :=
      { minutes_to_failure := fwm.2.2,
        hours_to_failure := ((⌊fwm.2.2 / 60⌋ : ℤ) : ℚ),
        status := if fwm.2.1 then "Critical" else "Normal" }
    readings_used := 1 }

/-- The `POST /api/ml/predict` handler on a well-formed JSON body.  The
formula-based health score is computed up front from the normalized snapshot;
the ML part depends on the deployment environment: not configured → status
`disabled` with a synthetic banded prediction when any vibration value is
truthy; configured but no readings → status `unavailable`; service reachable
with 2xx → status `available`; non-2xx or thrown fetch error → status
`unavailable` with an error message.  `success` is `true` on every path. -/
def POST (vibrationReadings : Option (List VibrationReading))
    (sensorData : Option SensorData) (env : MlEnv) : PredictResponse :=
  let healthResult := calculateHealthScore (normalizedReading sensorData)
  let readings : List VibrationReading :=
    if jsTruthy (sensorData.bind SensorData.vibration_peak_g) then
      [{ vibration_rms := jsOr (sensorData.bind SensorData.vibration_peak_g) 0 }]
    else []
  match env with
  | MlEnv.notConfigured =>
    let mlPrediction : Option MLPredictionResponse :=
      if jsTruthy (sensorData.bind SensorData.vibration_peak_g)
          || jsTruthy (sensorData.bind SensorData.vibrationRms) then
        some (syntheticPrediction (jsOr (sensorData.bind SensorData.vibration_peak_g)
          (jsOr (sensorData.bind SensorData.vibrationRms) 0)))
      else none
    { success := true
      healthScore := healthResult
      mlPrediction := mlPrediction.map convertMlResponse
      mlServiceStatus := MlServiceStatus.disabled
      mlServiceError := some "ML service is not configured for this deployment. Set ML_SERVICE_URL to a public URL to enable ML predictions." }
  | MlEnv.configured outcome =>
    if readings.length < 1 then
      { success := true
        healthScore := healthResult
        mlPrediction := none
        mlServiceStatus := MlServiceStatus.unavailable
        mlServiceError := some "Not enough vibration readings for ML prediction (need at least 1)" }
    else
      match outcome with
      | MlCallOutcome.ok resp =>
        { success := true
          healthScore := healthResult
          mlPrediction := some (convertMlResponse resp)
          mlServiceStatus := MlServiceStatus.available
          mlServiceError := none }
      | MlCallOutcome.httpError statusCode errorText =>
        { success := true
          healthScore := healthResult
          mlPrediction := none
          mlServiceStatus := MlServiceStatus.unavailable
          mlServiceError := some (match errorText with
            | some t => t
            | none => "ML service error") }
      | MlCallOutcome.fetchError message =>
        { success := true
          healthScore := healthResult
          mlPrediction := none
          mlServiceStatus := MlServiceStatus.unavailable
          mlServiceError := some (match message with
            | some m => m
            | none => "ML service unavailable") }

/-- The ML environments in which the external predictor is misconfigured,
unreachable or timed out (every case except a successful 2xx call). -/
def mlPredictorFails (env : MlEnv) : Prop :=
  env = MlEnv.notConfigured ∨
  (∃ statusCode errorText, env = MlEnv.configured (MlCallOutcome.httpError statusCode errorText)) ∨
  (∃ message, env = MlEnv.configured (MlCallOutcome.fetchError message))

/-! ### Concrete fixtures used by witnesses and counterexamples -/

/-- The worked snapshot example of the spec. -/
def exampleReading : SensorReading :=
  { gridVoltage := some 220
    motorCurrent := some 3
    powerFactor := some 0.95
    gridFrequency := some 50
    vibrationRms := some 5
    motorSurfaceTemp := some 90
    bearingTemp := some 50
    dustDensity := some 0 }

/-- A diagnosis result with fault level A (Minor) for the conclusion example. -/
def minorResult : DiagnosisResult :=
  { id := "R1", level := RuleLevel.A, damage := "d1", solution := "s1", cfRule := 0.5 }

/-- A diagnosis result with fault level C (Severe) for the conclusion example. -/
def severeResult : DiagnosisResult :=
  { id := "R2", level := RuleLevel.C, damage := "d2", solution := "s2", cfRule := 1 }

/-- A sample OR rule over symptoms 1 and 2. -/
def sampleRule : Rule :=
  { id := "G01", symptoms := [1, 2], operator := RuleOp.OR, level := RuleLevel.C,
    damage := "sample damage", solution := "sample solution" }

/-- A sensor payload whose only field is the Firebase-format
`vibration_peak_g`. -/
def peakOnlySensorData : SensorData := { vibration_peak_g := some 10 }

/-- The empty snapshot: every field absent. -/
def emptyReading : SensorReading := {}

/-- A snapshot whose only present field is a critical vibration value. -/
def vibOnlyReading : SensorReading := { vibrationRms := some 5 }

/-- The factor emitted for `vibOnlyReading`. -/
def vibOnlyFactor : HealthFactor :=
  { parameter := "vibrationRms", value := 5, status := statusCritical, penalty := 25 }

/-! ### Infrastructure lemmas for the health score calculator -/

theorem addFactor_fst (st : ℚ × List HealthFactor) (p : String) (v : Option ℚ)
    (th : Thresholds) (m : ℚ) (hm : 0 < m) :
    (addFactor st p v th m).1 = st.1 - stdPenalty v th m := by
  cases v with
  | none => simp [addFactor, stdPenalty]
  | some x =>
    simp only [addFactor, stdPenalty]
    split_ifs <;> first | ring1 | linarith

theorem addVoltageFactor_fst (st : ℚ × List HealthFactor) (v : Option ℚ) :
    (addVoltageFactor st v).1 = st.1 - voltPenalty v := by
  cases v with
  | none => simp [addVoltageFactor, voltPenalty]
  | some x =>
    simp only [addVoltageFactor, voltPenalty]
    split_ifs <;> simp

theorem addFrequencyFactor_fst (st : ℚ × List HealthFactor) (v : Option ℚ) :
    (addFrequencyFactor st v).1 = st.1 - freqPenalty v := by
  cases v with
  | none => simp [addFrequencyFactor, freqPenalty]
  | some x =>
    simp only [addFrequencyFactor, freqPenalty]
    split_ifs <;> simp

theorem runFactors_fst (r : SensorReading) :
    (runFactors r).1 = 100 - totalPenalty r := by
  simp only [runFactors]
  rw [addFrequencyFactor_fst,
    addFactor_fst _ _ _ _ _ (by norm_num [dustMaxPenalty]),
    addVoltageFactor_fst,
    addFactor_fst _ _ _ _ _ (by norm_num [powerFactorMaxPenalty]),
    addFactor_fst _ _ _ _ _ (by norm_num [currentMaxPenalty]),
    addFactor_fst _ _ _ _ _ (by norm_num [bearingTempMaxPenalty]),
    addFactor_fst _ _ _ _ _ (by norm_num [motorTempMaxPenalty]),
    addFactor_fst _ _ _ _ _ (by norm_num [vibrationMaxPenalty])]
  simp only [totalPenalty]
  ring

theorem sumPenalties_append (l : List HealthFactor) (f : HealthFactor) :
    sumPenalties (l ++ [f]) = sumPenalties l + f.penalty := by
  simp [sumPenalties]

theorem addFactor_sum (st : ℚ × List HealthFactor) (p : String) (v : Option ℚ)
    (th : Thresholds) (m : ℚ) :
    (addFactor st p v th m).1 + sumPenalties (addFactor st p v th m).2 =
      st.1 + sumPenalties st.2 := by
  cases v with
  | none => simp [addFactor]
  | some x =>
    simp only [addFactor]
    split_ifs <;> simp [sumPenalties_append] <;> ring

theorem addVoltageFactor_sum (st : ℚ × List HealthFactor) (v : Option ℚ) :
    (addVoltageFactor st v).1 + sumPenalties (addVoltageFactor st v).2 =
      st.1 + sumPenalties st.2 := by
  cases v with
  | none => simp [addVoltageFactor]
  | some x =>
    simp only [addVoltageFactor]
    split_ifs <;> simp [sumPenalties_append] <;> ring

theorem addFrequencyFactor_sum (st : ℚ × List HealthFactor) (v : Option ℚ) :
    (addFrequencyFactor st v).1 + sumPenalties (addFrequencyFactor st v).2 =
      st.1 + sumPenalties st.2 := by
  cases v with
  | none => simp [addFrequencyFactor]
  | some x =>
    simp only [addFrequencyFactor]
    split_ifs <;> simp [sumPenalties_append] <;> ring

theorem runFactors_sum (r : SensorReading) :
    (runFactors r).1 + sumPenalties (runFactors r).2 = 100 := by
  simp only [runFactors]
  rw [addFrequencyFactor_sum, addFactor_sum, addVoltageFactor_sum, addFactor_sum,
    addFactor_sum, addFactor_sum, addFactor_sum, addFactor_sum]
  simp [sumPenalties]

theorem addFactor_mem {f : HealthFactor} (st : ℚ × List HealthFactor) (p : String)
    (v : Option ℚ) (th : Thresholds) (m : ℚ)
    (hf : f ∈ (addFactor st p v th m).2) :
    f ∈ st.2 ∨ (f.parameter = p ∧ v.isSome) := by
  cases v with
  | none => exact Or.inl hf
  | some x =>
    simp only [addFactor] at hf
    split_ifs at hf
    all_goals
      first
      | exact Or.inl hf
      | (simp only [List.mem_append, List.mem_singleton] at hf
         rcases hf with h | h
         · exact Or.inl h
         · subst h
           exact Or.inr ⟨rfl, rfl⟩)

theorem addVoltageFactor_mem {f : HealthFactor} (st : ℚ × List HealthFactor)
    (v : Option ℚ) (hf : f ∈ (addVoltageFactor st v).2) :
    f ∈ st.2 ∨ (f.parameter = "gridVoltage" ∧ v.isSome) := by
  cases v with
  | none => exact Or.inl hf
  | some x =>
    simp only [addVoltageFactor] at hf
    split_ifs at hf
    all_goals
      first
      | exact Or.inl hf
      | (simp only [List.mem_append, List.mem_singleton] at hf
         rcases hf with h | h
         · exact Or.inl h
         · subst h
           exact Or.inr ⟨rfl, rfl⟩)

theorem addFrequencyFactor_mem {f : HealthFactor} (st : ℚ × List HealthFactor)
    (v : Option ℚ) (hf : f ∈ (addFrequencyFactor st v).2) :
    f ∈ st.2 ∨ (f.parameter = "gridFrequency" ∧ v.isSome) := by
  cases v with
  | none => exact Or.inl hf
  | some x =>
    simp only [addFrequencyFactor] at hf
    split_ifs at hf
    all_goals
      first
      | exact Or.inl hf
      | (simp only [List.mem_append, List.mem_singleton] at hf
         rcases hf with h | h
         · exact Or.inl h
         · subst h
           exact Or.inr ⟨rfl, rfl⟩)

theorem sortFactors_perm (l : List HealthFactor) : (sortFactors l).Perm l :=
  List.perm_insertionSort _ l

theorem sumPenalties_sortFactors (l : List HealthFactor) :
    sumPenalties (sortFactors l) = sumPenalties l :=
  List.Perm.sum_eq ((sortFactors_perm l).map HealthFactor.penalty)

theorem jsRound_eq {q : ℚ} {z : ℤ} (h1 : (z : ℚ) ≤ q + 1/2) (h2 : q + 1/2 < z + 1) :
    jsRound q = z := by
  rw [jsRound]
  refine Int.floor_eq_iff.mpr ⟨h1, ?_⟩
  push_cast
  exact h2

theorem jsRound_int (z : ℤ) : jsRound (z : ℚ) = z :=
  jsRound_eq (by linarith) (by linarith)

theorem jsRound_mono {p q : ℚ} (h : p ≤ q) : jsRound p ≤ jsRound q :=
  Int.floor_le_floor (by linarith)

theorem clampScore_nonneg (q : ℚ) : 0 ≤ clampScore q := le_max_left 0 _

theorem clampScore_le_100 (q : ℚ) : clampScore q ≤ 100 :=
  max_le (by norm_num) (min_le_left 100 q)

theorem clampScore_mono {p q : ℚ} (h : p ≤ q) : clampScore p ≤ clampScore q :=
  max_le_max le_rfl (min_le_min le_rfl h)

theorem calculateHealthScore_score (r : SensorReading) :
    (calculateHealthScore r).score = jsRound (clampScore (100 - totalPenalty r)) := by
  simp [calculateHealthScore, runFactors_fst]

theorem calculateHealthScore_category (r : SensorReading) :
    (calculateHealthScore r).category = categoryOf (clampScore (100 - totalPenalty r)) := by
  simp [calculateHealthScore, runFactors_fst]

theorem calculateHealthScore_factors (r : SensorReading) :
    (calculateHealthScore r).factors = sortFactors (runFactors r).2 := rfl

theorem stdPenalty_mem (v : Option ℚ) (th : Thresholds) (m : ℚ) :
    stdPenalty v th m = 0 ∨ stdPenalty v th m = m * 0.5 ∨ stdPenalty v th m = m := by
  cases v with
  | none => exact Or.inl rfl
  | some x =>
    simp only [stdPenalty]
    split_ifs <;> simp

theorem voltPenalty_mem (v : Option ℚ) :
    voltPenalty v = 0 ∨ voltPenalty v = 5 ∨ voltPenalty v = 10 := by
  cases v with
  | none => exact Or.inl rfl
  | some x =>
    simp only [voltPenalty]
    split_ifs <;> simp

theorem freqPenalty_mem (v : Option ℚ) :
    freqPenalty v = 0 ∨ freqPenalty v = 2 ∨ freqPenalty v = 5 := by
  cases v with
  | none => exact Or.inl rfl
  | some x =>
    simp only [freqPenalty]
    split_ifs <;> simp

theorem stdPenalty_double_nat (v : Option ℚ) (th : Thresholds) (c : ℕ) (hc : c % 5 = 0) :
    ∃ k : ℕ, 2 * stdPenalty v th (c : ℚ) = (k : ℚ) ∧ k % 5 = 0 ∧ k ≤ 2 * c := by
  rcases stdPenalty_mem v th (c : ℚ) with h | h | h
  · exact ⟨0, by rw [h]; norm_num, by omega, by omega⟩
  · refine ⟨c, ?_, hc, by omega⟩
    rw [h]; push_cast; ring
  · refine ⟨2 * c, ?_, by omega, le_refl _⟩
    rw [h]; push_cast; ring

theorem voltPenalty_double_nat (v : Option ℚ) :
    ∃ k : ℕ, 2 * voltPenalty v = (k : ℚ) ∧ k % 5 = 0 ∧ k ≤ 20 := by
  rcases voltPenalty_mem v with h | h | h
  · exact ⟨0, by rw [h]; norm_num, by omega, by omega⟩
  · exact ⟨10, by rw [h]; norm_num, by omega, by omega⟩
  · exact ⟨20, by rw [h]; norm_num, by omega, by omega⟩

theorem freqPenalty_double_nat (v : Option ℚ) :
    ∃ k : ℕ, 2 * freqPenalty v = (k : ℚ) ∧ (k % 5 = 0 ∨ k % 5 = 4) ∧ k ≤ 10 := by
  rcases freqPenalty_mem v with h | h | h
  · exact ⟨0, by rw [h]; norm_num, by omega, by omega⟩
  · exact ⟨4, by rw [h]; norm_num, by omega, by omega⟩
  · exact ⟨10, by rw [h]; norm_num, by omega, by omega⟩

theorem totalPenalty_double_nat (r : SensorReading) :
    ∃ n : ℕ, 2 * totalPenalty r = (n : ℚ) ∧ (n % 5 = 0 ∨ n % 5 = 4) ∧ n ≤ 240 := by
  have e1 := stdPenalty_double_nat r.vibrationRms vibTh 25 (by omega)
  have e2 := stdPenalty_double_nat r.motorSurfaceTemp motorTempTh 20 (by omega)
  have e3 := stdPenalty_double_nat r.bearingTemp bearingTempTh 20 (by omega)
  have e4 := stdPenalty_double_nat r.motorCurrent currentTh 15 (by omega)
  have e5 := stdPenalty_double_nat r.powerFactor powerFactorTh 15 (by omega)
  have e6 := voltPenalty_double_nat r.gridVoltage
  have e7 := stdPenalty_double_nat r.dustDensity dustTh 10 (by omega)
  have e8 := freqPenalty_double_nat r.gridFrequency
  rw [show ((25 : ℕ) : ℚ) = vibrationMaxPenalty by norm_num [vibrationMaxPenalty]] at e1
  rw [show ((20 : ℕ) : ℚ) = motorTempMaxPenalty by norm_num [motorTempMaxPenalty]] at e2
  rw [show ((20 : ℕ) : ℚ) = bearingTempMaxPenalty by norm_num [bearingTempMaxPenalty]] at e3
  rw [show ((15 : ℕ) : ℚ) = currentMaxPenalty by norm_num [currentMaxPenalty]] at e4
  rw [show ((15 : ℕ) : ℚ) = powerFactorMaxPenalty by norm_num [powerFactorMaxPenalty]] at e5
  rw [show ((10 : ℕ) : ℚ) = dustMaxPenalty by norm_num [dustMaxPenalty]] at e7
  obtain ⟨k1, h1, m1, b1⟩ := e1
  obtain ⟨k2, h2, m2, b2⟩ := e2
  obtain ⟨k3, h3, m3, b3⟩ := e3
  obtain ⟨k4, h4, m4, b4⟩ := e4
  obtain ⟨k5, h5, m5, b5⟩ := e5
  obtain ⟨k6, h6, m6, b6⟩ := e6
  obtain ⟨k7, h7, m7, b7⟩ := e7
  obtain ⟨k8, h8, m8, b8⟩ := e8
  refine ⟨k1 + k2 + k3 + k4 + k5 + k6 + k7 + k8, ?_, by omega, by omega⟩
  simp only [totalPenalty]
  push_cast
  linarith

theorem jsRound_natHalf (n : ℕ) :
    jsRound (100 - (n : ℚ) / 2) = 100 - ((n / 2 : ℕ) : ℤ) := by
  obtain ⟨k, hk⟩ : ∃ k, n = 2 * k ∨ n = 2 * k + 1 := ⟨n / 2, by omega⟩
  have hq : (n / 2 : ℕ) = k := by omega
  rw [hq]
  rcases hk with h | h <;> subst h <;> apply jsRound_eq <;> push_cast <;> linarith

/-- Claim C4: for every sensor snapshot, the returned (rounded) score and the
category of `calculateHealthScore` satisfy: score ≥ 80 iff Healthy,
60 ≤ score < 80 iff At Risk, score < 60 iff Critical. -/
theorem healthScore_category_consistency (r : SensorReading) :
    (80 ≤ (calculateHealthScore r).score ↔
      (calculateHealthScore r).category = HealthCategory.Healthy) ∧
    (60 ≤ (calculateHealthScore r).score ∧ (calculateHealthScore r).score < 80 ↔
      (calculateHealthScore r).category = HealthCategory.AtRisk) ∧
    ((calculateHealthScore r).score < 60 ↔
      (calculateHealthScore r).category = HealthCategory.Critical) := by
  obtain ⟨n, hn, h5, h240⟩ := totalPenalty_double_nat r
  have htp : totalPenalty r = (n : ℚ) / 2 := by linarith
  have hs := calculateHealthScore_score r
  have hc := calculateHealthScore_category r
  rw [htp] at hs hc
  by_cases h200 : n ≤ 200
  · have hcast : (n : ℚ) ≤ 200 := by exact_mod_cast h200
    have hcl : clampScore (100 - (n : ℚ) / 2) = 100 - (n : ℚ) / 2 := by
      simp only [clampScore]
      rw [min_eq_right (by linarith), max_eq_right (by linarith)]
    rw [hcl] at hs hc
    rw [jsRound_natHalf] at hs
    by_cases h40 : n ≤ 40
    · have hc40 : (n : ℚ) ≤ 40 := by exact_mod_cast h40
      have hcat : categoryOf (100 - (n : ℚ) / 2) = HealthCategory.Healthy := by
        simp only [categoryOf]
        rw [if_pos (by linarith)]
      rw [hs, hc, hcat]
      refine ⟨?_, ?_, ?_⟩ <;> simp <;> omega
    · by_cases h80 : n ≤ 80
      · have h42 : 42 ≤ n := by omega
        have hc42 : (42 : ℚ) ≤ (n : ℚ) := by exact_mod_cast h42
        have hc80 : (n : ℚ) ≤ 80 := by exact_mod_cast h80
        have hcat : categoryOf (100 - (n : ℚ) / 2) = HealthCategory.AtRisk := by
          simp only [categoryOf]
          rw [if_neg (by linarith), if_pos (by linarith)]
        rw [hs, hc, hcat]
        refine ⟨?_, ?_, ?_⟩ <;> simp <;> omega
      · have h82 : 82 ≤ n := by omega
        have hc82 : (82 : ℚ) ≤ (n : ℚ) := by exact_mod_cast h82
        have hcat : categoryOf (100 - (n : ℚ) / 2) = HealthCategory.Critical := by
          simp only [categoryOf]
          rw [if_neg (by linarith), if_neg (by linarith)]
        rw [hs, hc, hcat]
        refine ⟨?_, ?_, ?_⟩ <;> simp <;> omega
  · have hcast : (200 : ℚ) < (n : ℚ) := by exact_mod_cast Nat.lt_of_not_le h200
    have hcl : clampScore (100 - (n : ℚ) / 2) = 0 := by
      simp only [clampScore]
      rw [min_eq_right (by linarith), max_eq_left (by linarith)]
    rw [hcl] at hs hc
    have hz : jsRound (0 : ℚ) = 0 := jsRound_eq (by norm_num) (by norm_num)
    have hcat : categoryOf (0 : ℚ) = HealthCategory.Critical := by
      simp only [categoryOf]
      rw [if_neg (by norm_num), if_neg (by norm_num)]
    rw [hs, hz, hc, hcat]
    refine ⟨?_, ?_, ?_⟩ <;> simp

/-- Claim C5: for every sensor snapshot the returned score is the integer
rounding of `clamp(100 − Σ applied penalties, 0, 100)` and lies in
`[0, 100]`. -/
theorem healthScore_bounds_and_formula (r : SensorReading) :
    (calculateHealthScore r).score =
      jsRound (clampScore (100 - sumPenalties (calculateHealthScore r).factors)) ∧
    0 ≤ (calculateHealthScore r).score ∧ (calculateHealthScore r).score ≤ 100 := by
  have hfac : sumPenalties (calculateHealthScore r).factors = 100 - (runFactors r).1 := by
    rw [calculateHealthScore_factors, sumPenalties_sortFactors]
    have := runFactors_sum r
    linarith
  have hshape : (calculateHealthScore r).score = jsRound (clampScore ((runFactors r).1)) := rfl
  refine ⟨?_, ?_, ?_⟩
  · rw [hfac, hshape]
    congr 1
    congr 1
    ring
  · rw [hshape]
    have h0 : (0 : ℚ) ≤ clampScore (runFactors r).1 := clampScore_nonneg _
    rw [jsRound]
    exact Int.le_floor.mpr (by push_cast; linarith)
  · rw [hshape]
    have h100 : clampScore (runFactors r).1 ≤ 100 := clampScore_le_100 _
    rw [jsRound]
    have h2 : ⌊clampScore (runFactors r).1 + 1/2⌋ < 101 :=
      Int.floor_lt.mpr (by push_cast; linarith)
    omega

theorem stdPenalty_mono_higher (th : Thresholds) (hth : th.isLower = false) (m : ℚ)
    (hm : 0 ≤ m) {v w : ℚ} (hvw : v ≤ w) :
    stdPenalty (some v) th m ≤ stdPenalty (some w) th m := by
  have h : ∀ u : ℚ, stdPenalty (some u) th m =
      if u > th.critical then m else if u > th.warning then m * 0.5 else 0 := by
    intro u
    simp [stdPenalty, hth]
  rw [h v, h w]
  split_ifs <;> linarith

theorem stdPenalty_anti_lower (th : Thresholds) (hth : th.isLower = true) (m : ℚ)
    (hm : 0 ≤ m) {v w : ℚ} (hvw : v ≤ w) :
    stdPenalty (some w) th m ≤ stdPenalty (some v) th m := by
  have h : ∀ u : ℚ, stdPenalty (some u) th m =
      if u < th.critical then m else if u < th.warning then m * 0.5 else 0 := by
    intro u
    simp [stdPenalty, hth]
  rw [h v, h w]
  split_ifs <;> linarith

theorem score_le_of_penalty_le {r1 r2 : SensorReading}
    (h : totalPenalty r1 ≤ totalPenalty r2) :
    (calculateHealthScore r2).score ≤ (calculateHealthScore r1).score := by
  rw [calculateHealthScore_score, calculateHealthScore_score]
  exact jsRound_mono (clampScore_mono (by linarith))

/-- Claim C6: holding all other snapshot fields fixed, increasing a
higher-is-worse scored parameter (vibration RMS, motor surface temperature,
bearing temperature, motor current, dust density) never increases the score,
and increasing the lower-is-worse power factor never decreases it. -/
theorem healthScore_monotonicity (r : SensorReading) (v w : ℚ) (hvw : v ≤ w) :
    (calculateHealthScore { r with vibrationRms := some w }).score ≤
      (calculateHealthScore { r with vibrationRms := some v }).score ∧
    (calculateHealthScore { r with motorSurfaceTemp := some w }).score ≤
      (calculateHealthScore { r with motorSurfaceTemp := some v }).score ∧
    (calculateHealthScore { r with bearingTemp := some w }).score ≤
      (calculateHealthScore { r with bearingTemp := some v }).score ∧
    (calculateHealthScore { r with motorCurrent := some w }).score ≤
      (calculateHealthScore { r with motorCurrent := some v }).score ∧
    (calculateHealthScore { r with dustDensity := some w }).score ≤
      (calculateHealthScore { r with dustDensity := some v }).score ∧
    (calculateHealthScore { r with powerFactor := some v }).score ≤
      (calculateHealthScore { r with powerFactor := some w }).score := by
  refine ⟨?_, ?_, ?_, ?_, ?_, ?_⟩
  · apply score_le_of_penalty_le
    have hmono := stdPenalty_mono_higher vibTh rfl vibrationMaxPenalty
      (by norm_num [vibrationMaxPenalty]) hvw
    cases r
    simp only [totalPenalty]
    linarith
  · apply score_le_of_penalty_le
    have hmono := stdPenalty_mono_higher motorTempTh rfl motorTempMaxPenalty
      (by norm_num [motorTempMaxPenalty]) hvw
    cases r
    simp only [totalPenalty]
    linarith
  · apply score_le_of_penalty_le
    have hmono := stdPenalty_mono_higher bearingTempTh rfl bearingTempMaxPenalty
      (by norm_num [bearingTempMaxPenalty]) hvw
    cases r
    simp only [totalPenalty]
    linarith
  · apply score_le_of_penalty_le
    have hmono := stdPenalty_mono_higher currentTh rfl currentMaxPenalty
      (by norm_num [currentMaxPenalty]) hvw
    cases r
    simp only [totalPenalty]
    linarith
  · apply score_le_of_penalty_le
    have hmono := stdPenalty_mono_higher dustTh rfl dustMaxPenalty
      (by norm_num [dustMaxPenalty]) hvw
    cases r
    simp only [totalPenalty]
    linarith
  · apply score_le_of_penalty_le
    have hmono := stdPenalty_anti_lower powerFactorTh rfl powerFactorMaxPenalty
      (by norm_num [powerFactorMaxPenalty]) hvw
    cases r
    simp only [totalPenalty]
    linarith

/-- Witness for claim C6 at a concrete snapshot and value pair. -/
theorem healthScore_monotonicity_witness :
    (calculateHealthScore { emptyReading with vibrationRms := some 3 }).score ≤
      (calculateHealthScore { emptyReading with vibrationRms := some 1 }).score ∧
    (calculateHealthScore { emptyReading with motorSurfaceTemp := some 3 }).score ≤
      (calculateHealthScore { emptyReading with motorSurfaceTemp := some 1 }).score ∧
    (calculateHealthScore { emptyReading with bearingTemp := some 3 }).score ≤
      (calculateHealthScore { emptyReading with bearingTemp := some 1 }).score ∧
    (calculateHealthScore { emptyReading with motorCurrent := some 3 }).score ≤
      (calculateHealthScore { emptyReading with motorCurrent := some 1 }).score ∧
    (calculateHealthScore { emptyReading with dustDensity := some 3 }).score ≤
      (calculateHealthScore { emptyReading with dustDensity := some 1 }).score ∧
    (calculateHealthScore { emptyReading with powerFactor := some 1 }).score ≤
      (calculateHealthScore { emptyReading with powerFactor := some 3 }).score :=
  healthScore_monotonicity emptyReading 1 3 (by norm_num)

/-- Claim C7: a snapshot with every field absent yields score 100, category
Healthy and no factors; and every emitted factor belongs to a scored
parameter whose field is present in the input, so absent parameters
contribute no factor entry (and, with `healthScore_bounds_and_formula`, zero
penalty).  The embedding is a total function, so no input throws. -/
theorem healthScore_missing_data_neutrality :
    calculateHealthScore emptyReading =
      { score := 100, category := HealthCategory.Healthy, factors := [] } ∧
    ∀ (r : SensorReading) (f : HealthFactor), f ∈ (calculateHealthScore r).factors →
      (f.parameter = "vibrationRms" ∧ r.vibrationRms.isSome) ∨
      (f.parameter = "motorSurfaceTemp" ∧ r.motorSurfaceTemp.isSome) ∨
      (f.parameter = "bearingTemp" ∧ r.bearingTemp.isSome) ∨
      (f.parameter = "motorCurrent" ∧ r.motorCurrent.isSome) ∨
      (f.parameter = "powerFactor" ∧ r.powerFactor.isSome) ∨
      (f.parameter = "gridVoltage" ∧ r.gridVoltage.isSome) ∨
      (f.parameter = "dustDensity" ∧ r.dustDensity.isSome) ∨
      (f.parameter = "gridFrequency" ∧ r.gridFrequency.isSome) := by
  constructor
  · have hshape : calculateHealthScore emptyReading =
        { score := jsRound (clampScore (100 : ℚ)),
          category := categoryOf (clampScore (100 : ℚ)),
          factors := sortFactors ([] : List HealthFactor) } := rfl
    have hcl : clampScore (100 : ℚ) = 100 := by
      simp only [clampScore, min_self]
      exact max_eq_right (by norm_num)
    have h100 : jsRound ((100 : ℚ)) = 100 := by
      rw [show ((100 : ℚ)) = ((100 : ℤ) : ℚ) by norm_num, jsRound_int]
    have hcat : categoryOf (100 : ℚ) = HealthCategory.Healthy := by
      rw [categoryOf, if_pos (by norm_num : (100 : ℚ) ≥ 80)]
    rw [hshape, hcl, h100, hcat]
    rfl
  · intro r f hf
    rw [calculateHealthScore_factors] at hf
    rw [(sortFactors_perm (runFactors r).2).mem_iff] at hf
    simp only [runFactors] at hf
    rcases addFrequencyFactor_mem _ _ hf with hf | hgf
    · rcases addFactor_mem _ _ _ _ _ hf with hf | hdd
      · rcases addVoltageFactor_mem _ _ hf with hf | hgv
        · rcases addFactor_mem _ _ _ _ _ hf with hf | hpf
          · rcases addFactor_mem _ _ _ _ _ hf with hf | hmc
            · rcases addFactor_mem _ _ _ _ _ hf with hf | hbt
              · rcases addFactor_mem _ _ _ _ _ hf with hf | hmt
                · rcases addFactor_mem _ _ _ _ _ hf with hf | hvr
                  · simp at hf
                  · exact Or.inl hvr
                · exact Or.inr (Or.inl hmt)
              · exact Or.inr (Or.inr (Or.inl hbt))
            · exact Or.inr (Or.inr (Or.inr (Or.inl hmc)))
          · exact Or.inr (Or.inr (Or.inr (Or.inr (Or.inl hpf))))
        · exact Or.inr (Or.inr (Or.inr (Or.inr (Or.inr (Or.inl hgv)))))
      · exact Or.inr (Or.inr (Or.inr (Or.inr (Or.inr (Or.inr (Or.inl hdd))))))
    · exact Or.inr (Or.inr (Or.inr (Or.inr (Or.inr (Or.inr (Or.inr hgf))))))

/-- Witness for claim C7: the factor emitted for a vibration-only snapshot is
accounted to the present `vibrationRms` field. -/
theorem healthScore_missing_data_neutrality_witness :
    (vibOnlyFactor.parameter = "vibrationRms" ∧ vibOnlyReading.vibrationRms.isSome) ∨
    (vibOnlyFactor.parameter = "motorSurfaceTemp" ∧ vibOnlyReading.motorSurfaceTemp.isSome) ∨
    (vibOnlyFactor.parameter = "bearingTemp" ∧ vibOnlyReading.bearingTemp.isSome) ∨
    (vibOnlyFactor.parameter = "motorCurrent" ∧ vibOnlyReading.motorCurrent.isSome) ∨
    (vibOnlyFactor.parameter = "powerFactor" ∧ vibOnlyReading.powerFactor.isSome) ∨
    (vibOnlyFactor.parameter = "gridVoltage" ∧ vibOnlyReading.gridVoltage.isSome) ∨
    (vibOnlyFactor.parameter = "dustDensity" ∧ vibOnlyReading.dustDensity.isSome) ∨
    (vibOnlyFactor.parameter = "gridFrequency" ∧ vibOnlyReading.gridFrequency.isSome) := by
  apply healthScore_missing_data_neutrality.2 vibOnlyReading vibOnlyFactor
  have h : (calculateHealthScore vibOnlyReading).factors = [vibOnlyFactor] := by
    rw [calculateHealthScore_factors]
    simp only [runFactors, vibOnlyReading]
    norm_num [addFactor, addVoltageFactor, addFrequencyFactor, vibTh,
      vibrationMaxPenalty, sortFactors, vibOnlyFactor,
      List.insertionSort, List.orderedInsert]
  rw [h]
  exact List.mem_singleton.mpr rfl

/-- Claim C10: the declared input fields `power`, `ambientTemp` and
`vibrationPeakG` never influence the output of `calculateHealthScore`. -/
theorem healthScore_ignores_unscored_fields (r : SensorReading) (p a v : Option ℚ) :
    calculateHealthScore { r with power := p, ambientTemp := a, vibrationPeakG := v } =
      calculateHealthScore r := by
  cases r
  rfl

/-- Claim C3: the worked snapshot of the spec yields score 55, category Critical,
and exactly the vibration factor (penalty 25) followed by the motor surface
temperature factor (penalty 20). -/
theorem healthScore_example_spec :
    calculateHealthScore exampleReading =
      { score := 55, category := HealthCategory.Critical,
        factors :=
          [ { parameter := "vibrationRms", value := 5, status := statusCritical, penalty := 25 },
            { parameter := "motorSurfaceTemp", value := 90, status := statusCritical, penalty := 20 } ] } := by
  have h1 : runFactors exampleReading =
      (55, [ { parameter := "vibrationRms", value := 5, status := statusCritical, penalty := 25 },
             { parameter := "motorSurfaceTemp", value := 90, status := statusCritical, penalty := 20 } ]) := by
    simp only [runFactors, exampleReading]
    norm_num [addFactor, addVoltageFactor, addFrequencyFactor, vibTh, motorTempTh,
      bearingTempTh, currentTh, powerFactorTh, dustTh, vibrationMaxPenalty,
      motorTempMaxPenalty, bearingTempMaxPenalty, currentMaxPenalty,
      powerFactorMaxPenalty, dustMaxPenalty]
  have hshape : calculateHealthScore exampleReading =
      { score := jsRound (clampScore (runFactors exampleReading).1),
        category := categoryOf (clampScore (runFactors exampleReading).1),
        factors := sortFactors (runFactors exampleReading).2 } := rfl
  rw [hshape, h1]
  have hcl : clampScore (55 : ℚ) = 55 := by
    simp only [clampScore]
    rw [min_eq_right (by norm_num), max_eq_right (by norm_num)]
  have h55 : jsRound ((55 : ℚ)) = 55 := by
    rw [show ((55 : ℚ)) = ((55 : ℤ) : ℚ) by norm_num, jsRound_int]
  have hcat : categoryOf (55 : ℚ) = HealthCategory.Critical := by
    rw [categoryOf, if_neg (by norm_num), if_neg (by norm_num)]
  dsimp only
  rw [hcl, h55, hcat]
  norm_num [sortFactors, List.insertionSort, List.orderedInsert]

/-- Counterexample for claim C8: the six documented per-parameter maxPenalty
values sum to 105, not 110. -/
theorem maxPenalty_sum_counterexample :
    vibrationMaxPenalty + motorTempMaxPenalty + bearingTempMaxPenalty +
      currentMaxPenalty + powerFactorMaxPenalty + dustMaxPenalty = 105 ∧
    ¬(vibrationMaxPenalty + motorTempMaxPenalty + bearingTempMaxPenalty +
      currentMaxPenalty + powerFactorMaxPenalty + dustMaxPenalty = 110) := by
  norm_num [vibrationMaxPenalty, motorTempMaxPenalty, bearingTempMaxPenalty,
    currentMaxPenalty, powerFactorMaxPenalty, dustMaxPenalty]

/-- Claim C8 as amended: the six per-parameter maxPenalty values used by the
health score calculator sum to 105. -/
theorem maxPenalty_sum_amended :
    vibrationMaxPenalty + motorTempMaxPenalty + bearingTempMaxPenalty +
      currentMaxPenalty + powerFactorMaxPenalty + dustMaxPenalty = 105 := by
  norm_num [vibrationMaxPenalty, motorTempMaxPenalty, bearingTempMaxPenalty,
    currentMaxPenalty, powerFactorMaxPenalty, dustMaxPenalty]

/-! ### Expert system lemmas -/

theorem foldl_push_eq_filterMap {α β : Type} (g : α → Option β)
    (step : List β → α → List β)
    (hstep : ∀ acc a, step acc a = match g a with | some b => acc ++ [b] | none => acc)
    (l : List α) (acc : List β) :
    l.foldl step acc = acc ++ l.filterMap g := by
  induction l generalizing acc with
  | nil => simp
  | cons a as ih =>
    rw [List.foldl_cons, hstep, ih]
    cases hga : g a <;> simp [List.filterMap_cons, hga]

theorem cfValues_eq_specRuleEvidence (answers : ℕ → Option UserAnswer) (rule : Rule) :
    rule.symptoms.foldl (fun acc sid =>
      match answers sid, (symptoms.find? (fun s => s.id == sid)).map Symptom.cfExpert with
      | some userAnswer, some expertCF => acc ++ [fuzzyLevelToValue userAnswer * expertCF]
      | _, _ => acc) [] = specRuleEvidence answers rule := by
  rw [specRuleEvidence]
  rw [foldl_push_eq_filterMap (fun sid =>
    match answers sid with
    | none => none
    | some userAnswer =>
      (symptoms.find? (fun s => s.id == sid)).map
        (fun s => fuzzyLevelToValue userAnswer * s.cfExpert))]
  · simp
  · intro acc sid
    cases hans : answers sid <;>
      cases hfind : symptoms.find? (fun s => s.id == sid) <;>
      simp [hans, hfind]

theorem runDiagnosis_eq_specDiagnosis (rules : List Rule) (answers : ℕ → Option UserAnswer) :
    runDiagnosis rules answers = specDiagnosis rules answers := by
  rw [runDiagnosis, specDiagnosis]
  rw [foldl_push_eq_filterMap (fun rule =>
    let evidence := specRuleEvidence answers rule
    if evidence = [] then none
    else
      let combined := if rule.operator = RuleOp.OR then listMax evidence else listMin evidence
      if combined > 0 then
        some { id := rule.id, level := rule.level, damage := rule.damage,
               solution := rule.solution, cfRule := round2 combined }
      else none)]
  · simp
  · intro output rule
    have hcf := cfValues_eq_specRuleEvidence answers rule
    simp only [hcf]
    by_cases hev : specRuleEvidence answers rule = []
    · simp [hev]
    · by_cases hpos :
        (if rule.operator = RuleOp.OR then listMax (specRuleEvidence answers rule)
          else listMin (specRuleEvidence answers rule)) > 0
      · simp [hev, hpos]
      · simp [hev, hpos]

/-- Claim C1: for every rule catalog and every user-answer mapping,
`runDiagnosis` computes exactly the diagnosis the spec describes: each answered symptom
contributes `fuzzyLevelToValue(answer) * cfExpert` as evidence, an OR rule
combines the evidence with the maximum and an AND rule with the minimum, a
rule none of whose referenced symptoms is answered produces no result, and a
result (rounded to 2 decimals) is emitted exactly when the combined value is
positive. -/
theorem runDiagnosis_matches_spec (rules : List Rule) (answers : ℕ → Option UserAnswer) :
    runDiagnosis rules answers = specDiagnosis rules answers ∧
    ∀ rule : Rule, (∀ sid ∈ rule.symptoms, answers sid = none) →
      runDiagnosis [rule] answers = [] := by
  constructor
  · exact runDiagnosis_eq_specDiagnosis rules answers
  · intro rule hnone
    rw [runDiagnosis_eq_specDiagnosis]
    have hev : specRuleEvidence answers rule = [] := by
      simp only [specRuleEvidence]
      rw [List.filterMap_eq_nil]
      intro sid hsid
      rw [hnone sid hsid]
    simp [specDiagnosis, hev]

/-- Witness for claim C1: a fully unanswered session fires no rule. -/
theorem runDiagnosis_matches_spec_witness :
    runDiagnosis [sampleRule] (fun _ => none) = [] :=
  (runDiagnosis_matches_spec [sampleRule] (fun _ => none)).2 sampleRule (fun _ _ => rfl)

theorem round1_le_of_le (z : ℤ) (q : ℚ) (h : q ≤ (z : ℚ)) : round1 q ≤ (z : ℚ) := by
  have hlt : ⌊q * 10 + 1/2⌋ < 10 * z + 1 := Int.floor_lt.mpr (by push_cast; linarith)
  have hle : (⌊q * 10 + 1/2⌋ : ℚ) ≤ ((10 * z : ℤ) : ℚ) := by
    exact_mod_cast Int.lt_add_one_iff.mp hlt
  rw [round1]
  push_cast at hle
  linarith

theorem lt_round1_of_le (z : ℤ) (q : ℚ) (h : (z : ℚ) + 1/20 ≤ q) : (z : ℚ) < round1 q := by
  have hf : (10 * z + 1 : ℤ) ≤ ⌊q * 10 + 1/2⌋ := Int.le_floor.mpr (by push_cast; linarith)
  have hle : ((10 * z + 1 : ℤ) : ℚ) ≤ (⌊q * 10 + 1/2⌋ : ℚ) := by exact_mod_cast hf
  rw [round1]
  push_cast at hle
  linarith

theorem round1_eq (z : ℤ) (q : ℚ) (h1 : (z : ℚ) ≤ q * 10 + 1/2)
    (h2 : q * 10 + 1/2 < (z : ℚ) + 1) : round1 q = (z : ℚ) / 10 := by
  rw [round1]
  congr 1
  exact_mod_cast Int.floor_eq_iff.mpr ⟨h1, by push_cast; linarith⟩

theorem foldl_levelScore_init (l : List DiagnosisResult) :
    ∀ init : ℚ, l.foldl (fun sum r => sum + levelScore r.level) init =
      init + l.foldl (fun sum r => sum + levelScore r.level) 0 := by
  induction l with
  | nil => intro init; simp
  | cons r rs ih =>
    intro init
    rw [List.foldl_cons, List.foldl_cons, ih, ih (0 + levelScore r.level)]
    ring

theorem totalScore_decomp (l : List DiagnosisResult) :
    ∃ K : ℕ, l.foldl (fun sum r => sum + levelScore r.level) 0 =
      40 * (l.length : ℚ) + 30 * (K : ℚ) ∧ K ≤ 2 * l.length := by
  induction l with
  | nil => exact ⟨0, by simp, by omega⟩
  | cons r rs ih =>
    obtain ⟨K, hK, hKb⟩ := ih
    have hr : levelScore r.level = 40 ∨ levelScore r.level = 70 ∨ levelScore r.level = 100 := by
      cases r.level <;> simp [levelScore]
    rw [List.foldl_cons, foldl_levelScore_init]
    rcases hr with hl | hl | hl
    · refine ⟨K, ?_, by simp; omega⟩
      rw [hK, hl]
      simp only [List.length_cons]
      push_cast
      ring
    · refine ⟨K + 1, ?_, by simp; omega⟩
      rw [hK, hl]
      simp only [List.length_cons]
      push_cast
      ring
    · refine ⟨K + 2, ?_, by simp; omega⟩
      rw [hK, hl]
      simp only [List.length_cons]
      push_cast
      ring

theorem conclusionPercent_eq (data : List DiagnosisResult) (h : data ≠ []) :
    conclusionPercent data =
      data.foldl (fun sum r => sum + levelScore r.level) 0 / (data.length : ℚ) := by
  have hlen0 : data.length ≠ 0 := fun hh => h (List.length_eq_zero.mp hh)
  have hn : (data.length : ℚ) ≠ 0 := Nat.cast_ne_zero.mpr hlen0
  rw [conclusionPercent]
  field_simp
  ring

/-- Claim C2: with at least one fired rule, `calculateConclusion` returns the
average severity weight (Minor=40, Moderate=70, Severe=100) expressed as a
percentage, rounded to one decimal, labelled Minor for percentages up to 40,
Moderate up to 70 (boundary inclusive) and Severe above; the thresholds also
hold of the stored rounded percentage for any session of at most 600 fired
rules; with no fired rule there is no conclusion at all; and the Minor+Severe
pair yields exactly percent 70.0 with label Moderate. -/
theorem calculateConclusion_spec (data : List DiagnosisResult) (h : data ≠ []) :
    (∃ c : Conclusion, calculateConclusion data = some c ∧
      c.percent = round1 (conclusionPercent data) ∧
      (conclusionPercent data ≤ 40 → c.label = "Minor") ∧
      (40 < conclusionPercent data → conclusionPercent data ≤ 70 → c.label = "Moderate") ∧
      (70 < conclusionPercent data → c.label = "Severe") ∧
      (data.length ≤ 600 →
        (c.percent ≤ 40 ↔ conclusionPercent data ≤ 40) ∧
        (c.percent ≤ 70 ↔ conclusionPercent data ≤ 70))) ∧
    calculateConclusion [] = none ∧
    (∀ r1 r2 : DiagnosisResult, r1.level = RuleLevel.A → r2.level = RuleLevel.C →
      calculateConclusion [r1, r2] = some { percent := 70, label := "Moderate" }) := by
  have hlen0 : ¬(data.length = 0) := fun hh => h (List.length_eq_zero.mp hh)
  have hnq : (0 : ℚ) < (data.length : ℚ) := by
    exact_mod_cast Nat.pos_of_ne_zero hlen0
  have hunf : calculateConclusion data =
      some { percent := round1 (conclusionPercent data),
             label := if conclusionPercent data ≤ 40 then "Minor"
               else if conclusionPercent data ≤ 70 then "Moderate" else "Severe" } := by
    simp only [calculateConclusion, if_neg hlen0]
    rfl
  refine ⟨⟨_, hunf, rfl, ?_, ?_, ?_, ?_⟩, ?_, ?_⟩
  · intro h40
    simp only [if_pos h40]
  · intro h40 h70
    simp only [if_neg (not_le.mpr h40), if_pos h70]
  · intro h70
    have h40 : ¬ conclusionPercent data ≤ 40 := not_le.mpr (by linarith)
    simp only [if_neg h40, if_neg (not_le.mpr h70)]
  · intro h600
    dsimp only
    obtain ⟨K, hK, hKb⟩ := totalScore_decomp data
    have hPd : conclusionPercent data =
        (40 * (data.length : ℚ) + 30 * (K : ℚ)) / (data.length : ℚ) := by
      rw [conclusionPercent_eq data h, hK]
    have h600q : ((data.length : ℕ) : ℚ) ≤ 600 := by exact_mod_cast h600
    constructor
    · constructor
      · intro hr
        by_contra hgt
        push_neg at hgt
        have hKpos : (1 : ℚ) ≤ (K : ℚ) := by
          rw [hPd, lt_div_iff hnq] at hgt
          have hK0 : (0 : ℚ) < (K : ℚ) := by linarith
          have : (1 : ℕ) ≤ K := by
            have : (0 : ℕ) < K := by exact_mod_cast hK0
            omega
          exact_mod_cast this
        have hstep : (40 : ℚ) + 1/20 ≤ conclusionPercent data := by
          rw [hPd, le_div_iff hnq]
          linarith
        have hlt : ((40 : ℤ) : ℚ) < round1 (conclusionPercent data) :=
          lt_round1_of_le 40 (conclusionPercent data) (by push_cast; linarith)
        push_cast at hlt
        linarith
      · intro hle
        have hle2 : round1 (conclusionPercent data) ≤ ((40 : ℤ) : ℚ) :=
          round1_le_of_le 40 (conclusionPercent data) (by push_cast; linarith)
        push_cast at hle2
        linarith
    · constructor
      · intro hr
        by_contra hgt
        push_neg at hgt
        have hKn : (data.length : ℚ) + 1 ≤ (K : ℚ) := by
          rw [hPd, lt_div_iff hnq] at hgt
          have hlt : (data.length : ℚ) < (K : ℚ) := by linarith
          have : data.length + 1 ≤ K := by
            have : data.length < K := by exact_mod_cast hlt
            omega
          exact_mod_cast this
        have hstep : (70 : ℚ) + 1/20 ≤ conclusionPercent data := by
          rw [hPd, le_div_iff hnq]
          linarith
        have hlt : ((70 : ℤ) : ℚ) < round1 (conclusionPercent data) :=
          lt_round1_of_le 70 (conclusionPercent data) (by push_cast; linarith)
        push_cast at hlt
        linarith
      · intro hle
        have hle2 : round1 (conclusionPercent data) ≤ ((70 : ℤ) : ℚ) :=
          round1_le_of_le 70 (conclusionPercent data) (by push_cast; linarith)
        push_cast at hle2
        linarith
  · simp [calculateConclusion]
  · intro r1 r2 h1 h2
    have hlen2 : ¬(([r1, r2] : List DiagnosisResult).length = 0) := by simp
    have hT : ([r1, r2] : List DiagnosisResult).foldl
        (fun sum r => sum + levelScore r.level) 0 = 140 := by
      simp [h1, h2, levelScore]
      norm_num
    simp only [calculateConclusion, if_neg hlen2]
    rw [hT]
    have hperc : (140 : ℚ) / ((([r1, r2] : List DiagnosisResult).length : ℚ) * 100) * 100 = 70 := by
      norm_num
    rw [hperc]
    have hr70 : round1 (70 : ℚ) = 70 := by
      rw [round1_eq 700 70 (by norm_num) (by norm_num)]
      norm_num
    rw [if_neg (by norm_num : ¬(70 : ℚ) ≤ 40), if_pos (le_refl (70 : ℚ)), hr70]

/-- Witness for claim C2: the Minor + Severe session concludes Moderate at
70.0 percent. -/
theorem calculateConclusion_spec_witness :
    calculateConclusion [minorResult, severeResult] =
      some { percent := 70, label := "Moderate" } :=
  (calculateConclusion_spec [minorResult, severeResult] (by simp)).2.2
    minorResult severeResult rfl rfl

/-! ### `POST /api/ml/predict` lemmas -/

theorem POST_healthScore (vr : Option (List VibrationReading)) (sd : Option SensorData)
    (env : MlEnv) :
    (POST vr sd env).healthScore = calculateHealthScore (normalizedReading sd) := by
  cases env with
  | notConfigured => rfl
  | configured outcome =>
    simp only [POST]
    split <;> (try split) <;> first | rfl | (cases outcome <;> rfl)

theorem POST_success (vr : Option (List VibrationReading)) (sd : Option SensorData)
    (env : MlEnv) : (POST vr sd env).success = true := by
  cases env with
  | notConfigured => rfl
  | configured outcome =>
    simp only [POST]
    split <;> (try split) <;> first | rfl | (cases outcome <;> rfl)

/-- Claim C9 as amended: whenever the external ML predictor is misconfigured,
unreachable or timed out, the handler still answers `success = true` with a
non-`available` service status, and its `healthScore` equals the calculator
applied to the normalized snapshot — the snapshot whose `vibrationRms` has
been replaced by `vibration_peak_g || vibrationRms || 0`. -/
theorem mlPredict_degradation_amended (vr : Option (List VibrationReading))
    (sd : Option SensorData) (env : MlEnv) (henv : mlPredictorFails env) :
    (POST vr sd env).success = true ∧
    (POST vr sd env).healthScore = calculateHealthScore (normalizedReading sd) ∧
    (POST vr sd env).mlServiceStatus ≠ MlServiceStatus.available := by
  refine ⟨POST_success vr sd env, POST_healthScore vr sd env, ?_⟩
  rcases henv with h | ⟨c, t, h⟩ | ⟨m, h⟩ <;> subst h
  · simp [POST]
  · simp only [POST]
    split <;> (try split) <;> simp
  · simp only [POST]
    split <;> (try split) <;> simp

/-- Witness for the amended claim C9 at a concrete body and a timed-out
fetch. -/
theorem mlPredict_degradation_amended_witness :
    (POST none (some peakOnlySensorData)
        (MlEnv.configured (MlCallOutcome.fetchError (some "timeout")))).success = true ∧
    (POST none (some peakOnlySensorData)
        (MlEnv.configured (MlCallOutcome.fetchError (some "timeout")))).healthScore =
      calculateHealthScore (normalizedReading (some peakOnlySensorData)) ∧
    (POST none (some peakOnlySensorData)
        (MlEnv.configured (MlCallOutcome.fetchError (some "timeout")))).mlServiceStatus ≠
      MlServiceStatus.available :=
  mlPredict_degradation_amended none (some peakOnlySensorData) _
    (Or.inr (Or.inr ⟨some "timeout", rfl⟩))

/-- Counterexample for claim C9 as stated: with a sensor payload carrying only
the Firebase-format `vibration_peak_g`, the handler (ML predictor not
configured) reports `success = true` with a non-`available` status, yet its
`healthScore` differs from calling `calculateHealthScore` directly on the same
sensor snapshot, because the handler substitutes `vibration_peak_g` for
`vibrationRms` (score 75 instead of 100). -/
theorem mlPredict_degradation_counterexample :
    (POST none (some peakOnlySensorData) MlEnv.notConfigured).success = true ∧
    (POST none (some peakOnlySensorData) MlEnv.notConfigured).mlServiceStatus ≠
      MlServiceStatus.available ∧
    (POST none (some peakOnlySensorData) MlEnv.notConfigured).healthScore ≠
      calculateHealthScore (toSensorReading peakOnlySensorData) := by
  refine ⟨rfl, by simp [POST], ?_⟩
  have hL : (POST none (some peakOnlySensorData) MlEnv.notConfigured).healthScore =
      calculateHealthScore (normalizedReading (some peakOnlySensorData)) := rfl
  rw [hL]
  have h75 : (calculateHealthScore (normalizedReading (some peakOnlySensorData))).score = 75 := by
    rw [calculateHealthScore_score]
    have ht : totalPenalty (normalizedReading (some peakOnlySensorData)) = 25 := by
      norm_num [totalPenalty, normalizedReading, peakOnlySensorData, jsOr,
        stdPenalty, voltPenalty, freqPenalty, vibTh, motorTempTh, bearingTempTh,
        currentTh, powerFactorTh, dustTh, vibrationMaxPenalty, motorTempMaxPenalty,
        bearingTempMaxPenalty, currentMaxPenalty, powerFactorMaxPenalty, dustMaxPenalty]
    rw [ht, show (100 : ℚ) - 25 = 75 by norm_num]
    have hcl : clampScore (75 : ℚ) = 75 := by
      simp only [clampScore]
      rw [min_eq_right (by norm_num), max_eq_right (by norm_num)]
    rw [hcl, show ((75 : ℚ)) = ((75 : ℤ) : ℚ) by norm_num, jsRound_int]
  have h100 : (calculateHealthScore (toSensorReading peakOnlySensorData)).score = 100 := by
    rw [calculateHealthScore_score]
    have ht : totalPenalty (toSensorReading peakOnlySensorData) = 0 := by
      norm_num [totalPenalty, toSensorReading, peakOnlySensorData,
        stdPenalty, voltPenalty, freqPenalty]
    rw [ht, show (100 : ℚ) - 0 = 100 by norm_num]
    have hcl : clampScore (100 : ℚ) = 100 := by
      simp only [clampScore, min_self]
      exact max_eq_right (by norm_num)
    rw [hcl, show ((100 : ℚ)) = ((100 : ℤ) : ℚ) by norm_num, jsRound_int]
  intro hEq
  have hs := congrArg HealthScoreResult.score hEq
  rw [h75, h100] at hs
  exact absurd hs (by norm_num)
